import Mathlib

/-!
Verification of the Conntact keypress keycap widget
(`src/components/KeycapModel.tsx`).

The development shallowly embeds the widget's animation policy, press/release
state machine, material configuration and audio fallback as executable Lean
definitions over exact rational arithmetic, and proves the spec's claims
about them.

Numeric constants are the source's decimal literals written as rationals:
0.04 = 1/25, 0.02 = 1/50, 0.005 = 1/200, 0.65 = 13/20, 0.15 = 3/20,
0.03 = 3/100, 0.12 = 3/25, 0.15 = 3/20, 0.1 = 1/10, 0.4 = 2/5, 0.6 = 3/5,
0.9 = 9/10.
-/

/-- A 3-component vector, as used for position / rotation / scale of a
scene-graph object. -/
structure Vec3 where
  x : ℚ
  y : ℚ
  z : ℚ
  deriving DecidableEq

/-- The keycap group's pose: `group.current.position/rotation/scale`. -/
structure Pose where
  position : Vec3
  rotation : Vec3
  scale : Vec3
  deriving DecidableEq

/-- The shadow plane's animated state: `shadowRef.current.scale/position`
and its material's `opacity`. -/
structure ShadowState where
  scale : Vec3
  position : Vec3
  opacity : ℚ
  deriving DecidableEq

/-- The pressed branch of the `useFrame` callback (KeycapModel.tsx lines
164-183): fixed per-tick steps with hard clamps on the keycap pose, and a
snapped shadow state. -/
def framePressed (p : Pose) (sh : ShadowState) : Pose × ShadowState :=
  ({ p with
      scale := { p.scale with z := max (p.scale.z - 1/25) (13/20) },
      position := { p.position with z := max (p.position.z - 1/50) (-(3/20)) },
      rotation := { p.rotation with x := min (p.rotation.x + 1/200) (3/100) } },
   { sh with
      scale := ⟨9/10, 9/10, 1⟩,
      position := { sh.position with z := -(3/100) },
      opacity := 3/5 })

/-- The idle branch of the `useFrame` callback (KeycapModel.tsx lines
184-214): exponential easing of each quantity toward its rest target,
`value += (target - value) * rate`. -/
def frameIdle (p : Pose) (sh : ShadowState) : Pose × ShadowState :=
  ({ p with
      scale := { p.scale with z := p.scale.z + (1 - p.scale.z) * (1/10) },
      position := { p.position with z := p.position.z + (0 - p.position.z) * (3/25) },
      rotation := { p.rotation with x := p.rotation.x + (0 - p.rotation.x) * (3/20) } },
   { sh with
      scale := { sh.scale with
        x := sh.scale.x + (1 - sh.scale.x) * (1/10),
        y := sh.scale.y + (1 - sh.scale.y) * (1/10) },
      position := { sh.position with z := sh.position.z + (0 - sh.position.z) * (1/10) },
      opacity := sh.opacity + (2/5 - sh.opacity) * (1/10) })

/-- One `useFrame` tick: dispatch on `isPressed`. -/
def frameStep (isPressed : Bool) (s : Pose × ShadowState) : Pose × ShadowState :=
  if isPressed then framePressed s.1 s.2 else frameIdle s.1 s.2

/-- The keycap's rest pose: the initial-setup effect puts the group at
position (0, 0.2, 0) with scale (1,1,1); rotation starts at zero. -/
def restPose : Pose :=
  { position := ⟨0, 1/5, 0⟩, rotation := ⟨0, 0, 0⟩, scale := ⟨1, 1, 1⟩ }

/-- The shadow plane's rest state: scale (1,1,1), position (0, -0.2, 0),
opacity 0.4 (its JSX construction values). -/
def restShadow : ShadowState :=
  { scale := ⟨1, 1, 1⟩, position := ⟨0, -(1/5), 0⟩, opacity := 2/5 }

/-- The pose/shadow after `n` pressed-phase frame ticks starting from rest. -/
def pressedSeq (n : ℕ) : Pose × ShadowState :=
  (frameStep true)^[n] (restPose, restShadow)

/-- C10: after one pressed frame applied to an arbitrary pose, the clamps
hold: scale.z is at least 0.65, position.z at least -0.15, rotation.x at
most 0.03; and a start already past a bound is snapped onto the bound. -/
theorem pressed_clamps_absorbing (p : Pose) (sh : ShadowState) :
    (13 : ℚ)/20 ≤ (frameStep true (p, sh)).1.scale.z ∧
    -(3/20 : ℚ) ≤ (frameStep true (p, sh)).1.position.z ∧
    (frameStep true (p, sh)).1.rotation.x ≤ 3/100 ∧
    (p.scale.z ≤ 13/20 → (frameStep true (p, sh)).1.scale.z = 13/20) ∧
    (p.position.z ≤ -(3/20) → (frameStep true (p, sh)).1.position.z = -(3/20)) ∧
    (3/100 ≤ p.rotation.x → (frameStep true (p, sh)).1.rotation.x = 3/100) := by
  simp only [frameStep, framePressed, if_pos]
  refine ⟨le_max_right _ _, le_max_right _ _, min_le_right _ _, ?_, ?_, ?_⟩
  · intro h; exact max_eq_right (by linarith)
  · intro h; exact max_eq_right (by linarith)
  · intro h; exact min_eq_right (by linarith)

/-- Witness for C10 at a pose already past every bound. -/
theorem pressed_clamps_absorbing_witness :
    (frameStep true
      ({ position := ⟨0, 0, -1⟩, rotation := ⟨1, 0, 0⟩, scale := ⟨1, 1, 1/2⟩ },
        restShadow)).1.scale.z = 13/20 ∧
    (frameStep true
      ({ position := ⟨0, 0, -1⟩, rotation := ⟨1, 0, 0⟩, scale := ⟨1, 1, 1/2⟩ },
        restShadow)).1.position.z = -(3/20) ∧
    (frameStep true
      ({ position := ⟨0, 0, -1⟩, rotation := ⟨1, 0, 0⟩, scale := ⟨1, 1, 1/2⟩ },
        restShadow)).1.rotation.x = 3/100 := by
  have h := pressed_clamps_absorbing
    { position := ⟨0, 0, -1⟩, rotation := ⟨1, 0, 0⟩, scale := ⟨1, 1, 1/2⟩ } restShadow
  exact ⟨h.2.2.2.1 (by norm_num), h.2.2.2.2.1 (by norm_num), h.2.2.2.2.2 (by norm_num)⟩

/-- C8: a frame tick, in both branches, changes only position.z, rotation.x
and scale.z of the keycap, and only the shadow's scale, position.z and
opacity: all other keycap pose components and the shadow's position.x/y are
left unchanged. -/
theorem frame_touches_only_press_axis (b : Bool) (p : Pose) (sh : ShadowState) :
    (frameStep b (p, sh)).1.position.x = p.position.x ∧
    (frameStep b (p, sh)).1.position.y = p.position.y ∧
    (frameStep b (p, sh)).1.rotation.y = p.rotation.y ∧
    (frameStep b (p, sh)).1.rotation.z = p.rotation.z ∧
    (frameStep b (p, sh)).1.scale.x = p.scale.x ∧
    (frameStep b (p, sh)).1.scale.y = p.scale.y ∧
    (frameStep b (p, sh)).2.position.x = sh.position.x ∧
    (frameStep b (p, sh)).2.position.y = sh.position.y := by
  cases b <;> simp [frameStep, framePressed, frameIdle]

/-- C9: the rest pose is a fixed point of the idle frame update: when every
eased quantity already equals its rest target, one idle tick changes
nothing at all. -/
theorem rest_pose_idle_fixed (p : Pose) (sh : ShadowState)
    (hpz : p.position.z = 0) (hrx : p.rotation.x = 0) (hsz : p.scale.z = 1)
    (hsx : sh.scale.x = 1) (hsy : sh.scale.y = 1)
    (hshz : sh.position.z = 0) (hop : sh.opacity = 2/5) :
    frameStep false (p, sh) = (p, sh) := by
  obtain ⟨⟨px, py, pz⟩, ⟨rx, ry, rz⟩, ⟨sx, sy, sz⟩⟩ := p
  obtain ⟨⟨gx, gy, gz⟩, ⟨qx, qy, qz⟩, op⟩ := sh
  simp only at hpz hrx hsz hsx hsy hshz hop
  subst hpz hrx hsz hsx hsy hshz hop
  simp [frameStep, frameIdle]

/-- Witness for C9: one idle tick at the concrete rest pose/shadow is the
identity. -/
theorem rest_pose_idle_fixed_witness :
    frameStep false (restPose, restShadow) = (restPose, restShadow) :=
  rest_pose_idle_fixed restPose restShadow rfl rfl rfl rfl rfl rfl rfl


/-- Clamped decrement commutes with the clamp: stepping a floored value down
and re-flooring equals flooring the un-clamped trajectory. -/
theorem max_sub_clamp (a b c : ℚ) (hc : 0 ≤ c) :
    max (max a b - c) b = max (a - c) b := by
  rcases le_total a b with h | h
  · rw [max_eq_right h, max_eq_right (by linarith), max_eq_right (by linarith)]
  · rw [max_eq_left h]

/-- Clamped increment commutes with the clamp, dually. -/
theorem min_add_clamp (a b c : ℚ) (hc : 0 ≤ c) :
    min (min a b + c) b = min (a + c) b := by
  rcases le_total b a with h | h
  · rw [min_eq_right h, min_eq_right (by linarith), min_eq_right (by linarith)]
  · rw [min_eq_left h]

/-- Closed form of the press-axis scale after `n` pressed ticks from rest. -/
theorem pressedSeq_scaleZ (n : ℕ) :
    (pressedSeq n).1.scale.z = max (1 - (n : ℚ) * (1/25)) (13/20) := by
  induction n with
  | zero =>
    simp only [pressedSeq, Function.iterate_zero, id]
    norm_num [restPose]
  | succ n ih =>
    rw [pressedSeq, Function.iterate_succ_apply'] at *
    show (frameStep true _).1.scale.z = _
    simp only [frameStep, framePressed, if_pos]
    rw [ih, max_sub_clamp _ _ _ (by norm_num)]
    push_cast
    ring_nf

/-- Closed form of the press-axis position after `n` pressed ticks from rest. -/
theorem pressedSeq_posZ (n : ℕ) :
    (pressedSeq n).1.position.z = max (0 - (n : ℚ) * (1/50)) (-(3/20)) := by
  induction n with
  | zero =>
    simp only [pressedSeq, Function.iterate_zero, id]
    norm_num [restPose]
  | succ n ih =>
    rw [pressedSeq, Function.iterate_succ_apply'] at *
    show (frameStep true _).1.position.z = _
    simp only [frameStep, framePressed, if_pos]
    rw [ih, max_sub_clamp _ _ _ (by norm_num)]
    push_cast
    ring_nf

/-- Closed form of the tilt after `n` pressed ticks from rest. -/
theorem pressedSeq_rotX (n : ℕ) :
    (pressedSeq n).1.rotation.x = min (0 + (n : ℚ) * (1/200)) (3/100) := by
  induction n with
  | zero =>
    simp only [pressedSeq, Function.iterate_zero, id]
    norm_num [restPose]
  | succ n ih =>
    rw [pressedSeq, Function.iterate_succ_apply'] at *
    show (frameStep true _).1.rotation.x = _
    simp only [frameStep, framePressed, if_pos]
    rw [ih, min_add_clamp _ _ _ (by norm_num)]
    push_cast
    ring_nf

/-- C2: during the Pressed phase from the rest pose, scale.z is monotonically
non-increasing, steps down by exactly 0.04 per tick while unclamped, never
drops below 0.65 and reaches the 0.65 floor from tick 9 on; position.z steps
down by 0.02 per tick while unclamped, never drops below -0.15 and reaches
the -0.15 floor from tick 8 on; rotation.x steps up by 0.005 per tick while
unclamped, never exceeds 0.03 and reaches the 0.03 ceiling from tick 6 on. -/
theorem pressed_phase_profile :
    (∀ n : ℕ, (pressedSeq (n+1)).1.scale.z ≤ (pressedSeq n).1.scale.z) ∧
    (∀ n : ℕ, (13 : ℚ)/20 ≤ (pressedSeq n).1.scale.z) ∧
    (∀ n : ℕ, n ≤ 7 →
      (pressedSeq (n+1)).1.scale.z = (pressedSeq n).1.scale.z - 1/25) ∧
    (∀ n : ℕ, 9 ≤ n → (pressedSeq n).1.scale.z = 13/20) ∧
    (∀ n : ℕ, (pressedSeq (n+1)).1.position.z ≤ (pressedSeq n).1.position.z) ∧
    (∀ n : ℕ, -(3/20 : ℚ) ≤ (pressedSeq n).1.position.z) ∧
    (∀ n : ℕ, n ≤ 6 →
      (pressedSeq (n+1)).1.position.z = (pressedSeq n).1.position.z - 1/50) ∧
    (∀ n : ℕ, 8 ≤ n → (pressedSeq n).1.position.z = -(3/20)) ∧
    (∀ n : ℕ, (pressedSeq n).1.rotation.x ≤ (pressedSeq (n+1)).1.rotation.x) ∧
    (∀ n : ℕ, (pressedSeq n).1.rotation.x ≤ 3/100) ∧
    (∀ n : ℕ, n ≤ 5 →
      (pressedSeq (n+1)).1.rotation.x = (pressedSeq n).1.rotation.x + 1/200) ∧
    (∀ n : ℕ, 6 ≤ n → (pressedSeq n).1.rotation.x = 3/100) := by
  refine ⟨?_, ?_, ?_, ?_, ?_, ?_, ?_, ?_, ?_, ?_, ?_, ?_⟩
  · intro n
    rw [pressedSeq_scaleZ, pressedSeq_scaleZ]
    refine max_le_max ?_ le_rfl
    push_cast
    linarith
  · intro n
    rw [pressedSeq_scaleZ]
    exact le_max_right _ _
  · intro n hn
    have hn' : (n : ℚ) ≤ 7 := by exact_mod_cast hn
    rw [pressedSeq_scaleZ, pressedSeq_scaleZ]
    push_cast
    rw [max_eq_left (by linarith), max_eq_left (by linarith)]
    ring
  · intro n hn
    have hn' : (9 : ℚ) ≤ (n : ℚ) := by exact_mod_cast hn
    rw [pressedSeq_scaleZ, max_eq_right (by linarith)]
  · intro n
    rw [pressedSeq_posZ, pressedSeq_posZ]
    refine max_le_max ?_ le_rfl
    push_cast
    linarith
  · intro n
    rw [pressedSeq_posZ]
    exact le_max_right _ _
  · intro n hn
    have hn' : (n : ℚ) ≤ 6 := by exact_mod_cast hn
    rw [pressedSeq_posZ, pressedSeq_posZ]
    push_cast
    rw [max_eq_left (by linarith), max_eq_left (by linarith)]
    ring
  · intro n hn
    have hn' : (8 : ℚ) ≤ (n : ℚ) := by exact_mod_cast hn
    rw [pressedSeq_posZ, max_eq_right (by linarith)]
  · intro n
    rw [pressedSeq_rotX, pressedSeq_rotX]
    refine min_le_min ?_ le_rfl
    push_cast
    linarith
  · intro n
    rw [pressedSeq_rotX]
    exact min_le_right _ _
  · intro n hn
    have hn' : (n : ℚ) ≤ 5 := by exact_mod_cast hn
    rw [pressedSeq_rotX, pressedSeq_rotX]
    push_cast
    rw [min_eq_left (by linarith), min_eq_left (by linarith)]
    ring
  · intro n hn
    have hn' : (6 : ℚ) ≤ (n : ℚ) := by exact_mod_cast hn
    rw [pressedSeq_rotX, min_eq_right (by linarith)]

/-- Witness for C2: the exact-step and floor/ceiling-reaching conjuncts at
concrete tick counts. -/
theorem pressed_phase_profile_witness :
    (pressedSeq 1).1.scale.z = (pressedSeq 0).1.scale.z - 1/25 ∧
    (pressedSeq 9).1.scale.z = 13/20 ∧
    (pressedSeq 7).1.position.z = (pressedSeq 6).1.position.z - 1/50 ∧
    (pressedSeq 8).1.position.z = -(3/20) ∧
    (pressedSeq 6).1.rotation.x = (pressedSeq 5).1.rotation.x + 1/200 ∧
    (pressedSeq 6).1.rotation.x = 3/100 := by
  have h := pressed_phase_profile
  exact ⟨h.2.2.1 0 (by norm_num), h.2.2.2.1 9 (by norm_num),
    h.2.2.2.2.2.2.1 6 (by norm_num), h.2.2.2.2.2.2.2.1 8 (by norm_num),
    h.2.2.2.2.2.2.2.2.2.2.1 5 (by norm_num),
    h.2.2.2.2.2.2.2.2.2.2.2 6 (by norm_num)⟩

/-- One easing step `v + (t - v) * r` scales the distance to target by
`1 - r`, so distance strictly shrinks exactly when `v ≠ t`, and the sign of
`t - v` is never flipped (no overshoot). -/
theorem ease_contracts (v t r : ℚ) (h0 : 0 < r) (h1 : r < 1) :
    |t - (v + (t - v) * r)| = (1 - r) * |t - v| ∧
    (v ≠ t → |t - (v + (t - v) * r)| < |t - v|) ∧
    0 ≤ (t - (v + (t - v) * r)) * (t - v) := by
  have key : t - (v + (t - v) * r) = (1 - r) * (t - v) := by ring
  refine ⟨?_, ?_, ?_⟩
  · rw [key, abs_mul, abs_of_pos (by linarith)]
  · intro hvt
    rw [key, abs_mul, abs_of_pos (by linarith)]
    have habs : 0 < |t - v| := abs_pos.mpr (by intro h; exact hvt (by linarith))
    nlinarith
  · rw [key]
    nlinarith [sq_nonneg (t - v)]

/-- C3 counterexample: at the rest pose the idle update leaves position.z's
distance to its target at 0, so "strictly decreases every tick" fails. -/
theorem idle_strict_decrease_cex :
    ¬ (|(0 : ℚ) - (frameStep false (restPose, restShadow)).1.position.z| <
        |(0 : ℚ) - restPose.position.z|) := by
  norm_num [frameStep, frameIdle, restPose, restShadow]

/-- C3 (amended): each idle-branch quantity is updated by
`value += (target - value) * rate` at the stated rates (position.z 0.12,
rotation.x 0.15, scale.z 0.10, shadow quantities 0.10); each step multiplies
the distance to the rest target by `1 - rate`, hence strictly decreases it
whenever the value differs from its target, and preserves the sign of
`target - value` (no overshoot). -/
theorem idle_ease_contraction (p : Pose) (sh : ShadowState) :
    ((frameStep false (p, sh)).1.position.z
        = p.position.z + (0 - p.position.z) * (3/25)) ∧
    ((frameStep false (p, sh)).1.rotation.x
        = p.rotation.x + (0 - p.rotation.x) * (3/20)) ∧
    ((frameStep false (p, sh)).1.scale.z
        = p.scale.z + (1 - p.scale.z) * (1/10)) ∧
    (p.position.z ≠ 0 →
      |0 - (frameStep false (p, sh)).1.position.z| < |0 - p.position.z|) ∧
    (p.rotation.x ≠ 0 →
      |0 - (frameStep false (p, sh)).1.rotation.x| < |0 - p.rotation.x|) ∧
    (p.scale.z ≠ 1 →
      |1 - (frameStep false (p, sh)).1.scale.z| < |1 - p.scale.z|) ∧
    (sh.scale.x ≠ 1 →
      |1 - (frameStep false (p, sh)).2.scale.x| < |1 - sh.scale.x|) ∧
    (sh.scale.y ≠ 1 →
      |1 - (frameStep false (p, sh)).2.scale.y| < |1 - sh.scale.y|) ∧
    (sh.position.z ≠ 0 →
      |0 - (frameStep false (p, sh)).2.position.z| < |0 - sh.position.z|) ∧
    (sh.opacity ≠ 2/5 →
      |2/5 - (frameStep false (p, sh)).2.opacity| < |2/5 - sh.opacity|) ∧
    0 ≤ (0 - (frameStep false (p, sh)).1.position.z) * (0 - p.position.z) ∧
    0 ≤ (0 - (frameStep false (p, sh)).1.rotation.x) * (0 - p.rotation.x) ∧
    0 ≤ (1 - (frameStep false (p, sh)).1.scale.z) * (1 - p.scale.z) ∧
    0 ≤ (1 - (frameStep false (p, sh)).2.scale.x) * (1 - sh.scale.x) ∧
    0 ≤ (1 - (frameStep false (p, sh)).2.scale.y) * (1 - sh.scale.y) ∧
    0 ≤ (0 - (frameStep false (p, sh)).2.position.z) * (0 - sh.position.z) ∧
    0 ≤ (2/5 - (frameStep false (p, sh)).2.opacity) * (2/5 - sh.opacity) := by
  simp only [frameStep, frameIdle, Bool.false_eq_true, if_false]
  refine ⟨trivial, trivial, trivial, ?_, ?_, ?_, ?_, ?_, ?_, ?_, ?_, ?_, ?_, ?_, ?_, ?_, ?_⟩
  · exact (ease_contracts p.position.z 0 (3/25) (by norm_num) (by norm_num)).2.1
  · exact (ease_contracts p.rotation.x 0 (3/20) (by norm_num) (by norm_num)).2.1
  · exact (ease_contracts p.scale.z 1 (1/10) (by norm_num) (by norm_num)).2.1
  · exact (ease_contracts sh.scale.x 1 (1/10) (by norm_num) (by norm_num)).2.1
  · exact (ease_contracts sh.scale.y 1 (1/10) (by norm_num) (by norm_num)).2.1
  · exact (ease_contracts sh.position.z 0 (1/10) (by norm_num) (by norm_num)).2.1
  · exact (ease_contracts sh.opacity (2/5) (1/10) (by norm_num) (by norm_num)).2.1
  · exact (ease_contracts p.position.z 0 (3/25) (by norm_num) (by norm_num)).2.2
  · exact (ease_contracts p.rotation.x 0 (3/20) (by norm_num) (by norm_num)).2.2
  · exact (ease_contracts p.scale.z 1 (1/10) (by norm_num) (by norm_num)).2.2
  · exact (ease_contracts sh.scale.x 1 (1/10) (by norm_num) (by norm_num)).2.2
  · exact (ease_contracts sh.scale.y 1 (1/10) (by norm_num) (by norm_num)).2.2
  · exact (ease_contracts sh.position.z 0 (1/10) (by norm_num) (by norm_num)).2.2
  · exact (ease_contracts sh.opacity (2/5) (1/10) (by norm_num) (by norm_num)).2.2

/-- Witness for C3 (amended) at a displaced pose: every strict-decrease
hypothesis discharged at concrete off-target values. -/
theorem idle_ease_contraction_witness :
    |(0 : ℚ) - (frameStep false
      ({ position := ⟨0, 1/5, -(1/10)⟩, rotation := ⟨1/50, 0, 0⟩,
         scale := ⟨1, 1, 7/10⟩ },
       { scale := ⟨9/10, 9/10, 1⟩, position := ⟨0, -(1/5), -(3/100)⟩,
         opacity := 3/5 })).1.position.z| < |(0 : ℚ) - (-(1/10))| ∧
    |(1 : ℚ) - (frameStep false
      ({ position := ⟨0, 1/5, -(1/10)⟩, rotation := ⟨1/50, 0, 0⟩,
         scale := ⟨1, 1, 7/10⟩ },
       { scale := ⟨9/10, 9/10, 1⟩, position := ⟨0, -(1/5), -(3/100)⟩,
         opacity := 3/5 })).1.scale.z| < |(1 : ℚ) - 7/10| ∧
    |(2/5 : ℚ) - (frameStep false
      ({ position := ⟨0, 1/5, -(1/10)⟩, rotation := ⟨1/50, 0, 0⟩,
         scale := ⟨1, 1, 7/10⟩ },
       { scale := ⟨9/10, 9/10, 1⟩, position := ⟨0, -(1/5), -(3/100)⟩,
         opacity := 3/5 })).2.opacity| < |(2/5 : ℚ) - 3/5| := by
  have h := idle_ease_contraction
    { position := ⟨0, 1/5, -(1/10)⟩, rotation := ⟨1/50, 0, 0⟩,
      scale := ⟨1, 1, 7/10⟩ }
    { scale := ⟨9/10, 9/10, 1⟩, position := ⟨0, -(1/5), -(3/100)⟩,
      opacity := 3/5 }
  exact ⟨h.2.2.2.1 (by norm_num), h.2.2.2.2.2.1 (by norm_num),
    h.2.2.2.2.2.2.2.2.2.1 (by norm_num)⟩

/-- The widget's interaction state: the `isPressed` flag, the absolute
deadlines (ms) of outstanding 200 ms release timers, the number of
completion-callback (`onClick`) invocations, and the number of sound
playbacks triggered. -/
structure KeyState where
  isPressed : Bool
  timers : List ℕ
  onClickCount : ℕ
  soundPlays : ℕ
  deriving DecidableEq

/-- Initial interaction state: `useState(false)`, nothing scheduled. -/
def initKeyState : KeyState := ⟨false, [], 0, 0⟩

/-- Deliver every outstanding release-timer callback whose deadline has
passed by time `t`: each one runs `setIsPressed(false)` unconditionally and
is consumed. -/
def fireDue (t : ℕ) (s : KeyState) : KeyState :=
  { s with
    isPressed := if s.timers.any (fun d => decide (d ≤ t)) then false else s.isPressed,
    timers := s.timers.filter (fun d => decide (t < d)) }

/-- `handleClick` (KeycapModel.tsx lines 136-159) at time `t`: a no-op while
pressed; otherwise set Pressed, invoke the completion callback, trigger the
sound, and schedule one release timer for `t + 200`. -/
def handleClick (t : ℕ) (s : KeyState) : KeyState :=
  if s.isPressed then s
  else
    { isPressed := true, timers := s.timers ++ [t + 200],
      onClickCount := s.onClickCount + 1, soundPlays := s.soundPlays + 1 }

/-- Process a time-ordered list of click events: before each click the due
timers fire, then the click is handled. -/
def runClicks : List ℕ → KeyState → KeyState
  | [], s => s
  | t :: ts, s => runClicks ts (handleClick t (fireDue t s))

/-- The interaction state observed at time `t` after a click sequence: all
clicks processed, then timers due by `t` delivered. -/
def stateAt (clicks : List ℕ) (t : ℕ) : KeyState :=
  fireDue t (runClicks clicks initKeyState)

/-- C1: `activate()` while Pressed is a complete no-op (no callback, no new
release timer, no sound); a successful activation bumps the callback count
by exactly one; and three rapid clicks within 50 ms yield exactly one
callback invocation, one pending release timer and one sound playback. -/
theorem pressed_activate_noop :
    (∀ (t : ℕ) (s : KeyState), s.isPressed = true → handleClick t s = s) ∧
    (∀ (t : ℕ) (s : KeyState), s.isPressed = false →
      (handleClick t s).onClickCount = s.onClickCount + 1 ∧
      (handleClick t s).soundPlays = s.soundPlays + 1 ∧
      (handleClick t s).timers = s.timers ++ [t + 200]) ∧
    (∀ t0 t1 t2 : ℕ, t0 < t1 → t1 < t2 → t2 ≤ t0 + 50 →
      (runClicks [t0, t1, t2] initKeyState).onClickCount = 1 ∧
      (runClicks [t0, t1, t2] initKeyState).timers = [t0 + 200] ∧
      (runClicks [t0, t1, t2] initKeyState).soundPlays = 1) := by
  refine ⟨?_, ?_, ?_⟩
  · intro t s hs
    simp [handleClick, hs]
  · intro t s hs
    simp [handleClick, hs]
  · intro t0 t1 t2 h01 h12 h250
    have h1 : ¬ (t0 + 200 ≤ t1) := by omega
    have h2 : ¬ (t0 + 200 ≤ t2) := by omega
    simp [runClicks, fireDue, handleClick, initKeyState, h1, h2]
    omega

/-- Witness for C1 at clicks 0, 10, 20 and a concrete pressed state. -/
theorem pressed_activate_noop_witness :
    handleClick 5 ⟨true, [200], 1, 1⟩ = ⟨true, [200], 1, 1⟩ ∧
    (runClicks [0, 10, 20] initKeyState).onClickCount = 1 ∧
    (runClicks [0, 10, 20] initKeyState).timers = [200] ∧
    (runClicks [0, 10, 20] initKeyState).soundPlays = 1 := by
  have h := pressed_activate_noop
  have h3 := h.2.2 0 10 20 (by norm_num) (by norm_num) (by norm_num)
  exact ⟨h.1 5 ⟨true, [200], 1, 1⟩ rfl, h3.1, h3.2.1, h3.2.2⟩

/-- C6: a successful `activate()` sets Pressed immediately and schedules one
200 ms release timer; after a single activation at `t0` the state is
Pressed at exactly the times `t < t0 + 200` and Idle afterwards, the timer
being consumed by its firing; and there is no other transition out of
Pressed: a click never clears the flag, and timer delivery before the
deadline changes nothing. -/
theorem press_release_timing :
    (∀ (t : ℕ) (s : KeyState), s.isPressed = false →
      (handleClick t s).isPressed = true ∧
      (handleClick t s).timers = s.timers ++ [t + 200]) ∧
    (∀ t0 t : ℕ, t0 ≤ t →
      ((stateAt [t0] t).isPressed = true ↔ t < t0 + 200) ∧
      (stateAt [t0] t).timers = (if t < t0 + 200 then [t0 + 200] else [])) ∧
    (∀ (t : ℕ) (s : KeyState), s.isPressed = true →
      (handleClick t s).isPressed = true) ∧
    (∀ (t : ℕ) (s : KeyState), (∀ d ∈ s.timers, t < d) → fireDue t s = s) := by
  refine ⟨?_, ?_, ?_, ?_⟩
  · intro t s hs
    simp [handleClick, hs]
  · intro t0 t ht
    by_cases hlt : t < t0 + 200
    · have h1 : ¬ (t0 + 200 ≤ t) := by omega
      simp [stateAt, runClicks, fireDue, handleClick, initKeyState, h1, hlt]
    · have h1 : t0 + 200 ≤ t := by omega
      simp [stateAt, runClicks, fireDue, handleClick, initKeyState, h1, hlt]
  · intro t s hs
    simp [handleClick, hs]
  · intro t s hs
    have hany : s.timers.any (fun d => decide (d ≤ t)) = false := by
      simp only [List.any_eq_false, decide_eq_true_eq]
      intro d hd
      exact Nat.not_le.mpr (hs d hd)
    have hfil : s.timers.filter (fun d => decide (t < d)) = s.timers := by
      rw [List.filter_eq_self]
      intro d hd
      exact decide_eq_true (hs d hd)
    simp [fireDue, hany, hfil]

/-- Witness for C6: one click at time 0, observed at 100 ms (still Pressed,
timer pending) and at 200 ms (Idle, timer consumed). -/
theorem press_release_timing_witness :
    (stateAt [0] 100).isPressed = true ∧
    (stateAt [0] 100).timers = [200] ∧
    (stateAt [0] 200).isPressed = false ∧
    (stateAt [0] 200).timers = [] := by
  have h := press_release_timing
  have h100 := h.2.1 0 100 (by norm_num)
  have h200 := h.2.1 0 200 (by norm_num)
  refine ⟨h100.1.mpr (by norm_num), ?_, ?_, ?_⟩
  · rw [h100.2]; norm_num
  · have hne : ¬ ((stateAt [0] 200).isPressed = true) := by
      intro hc
      exact absurd (h200.1.mp hc) (by norm_num)
    exact Bool.not_eq_true _ ▸ hne
  · rw [h200.2]; norm_num

/-- `createFallbackSound`'s buffer length (KeycapModel.tsx line 88):
`sampleRate * 0.1` frames. -/
def fallbackBufferLen (sampleRate : ℚ) : ℚ := sampleRate * (1/10)

/-- The deterministic amplitude envelope of the synthesized click: sample
`i` of a buffer of `len` frames is `Math.random()` times this value
(KeycapModel.tsx lines 92-101): `0.5` during the first 10% of samples
(attack), `0.5 * (1 - i/len)` afterwards (decay). -/
def fallbackEnvelope (len : ℚ) (i : ℕ) : ℚ :=
  if (i : ℚ) < len * (1/10) then 1/2 else (1/2) * (1 - (i : ℚ) / len)

/-- Playback volume of the synthesized fallback click (line 104). -/
def fallbackVolume : ℚ := 3/10

/-- Playback volume of the successfully loaded sound asset (line 68). -/
def loadedVolume : ℚ := 7/10

/-- C4 counterexample: the fallback attack envelope is constant, not
strictly increasing: samples 0 and 1 of a 100-frame buffer both lie in the
first 10% and have equal envelope 0.5. -/
theorem fallback_attack_not_increasing :
    fallbackEnvelope 100 0 = fallbackEnvelope 100 1 ∧
    ¬ (fallbackEnvelope 100 0 < fallbackEnvelope 100 1) := by
  norm_num [fallbackEnvelope]

/-- C4 (amended): the fallback buffer lasts exactly 0.1 s (sampleRate * 0.1
samples); its amplitude envelope is constant (0.5) over the first 10% of
samples and strictly decreasing over the remainder; it is played at volume
0.3 instead of the asset's 0.7; and a successful `activate()` still
triggers exactly one sound playback. -/
theorem fallback_sound_profile :
    (∀ sampleRate : ℚ, 0 < sampleRate →
      fallbackBufferLen sampleRate / sampleRate = 1/10) ∧
    (∀ (len : ℚ) (i j : ℕ), (i : ℚ) < len * (1/10) → (j : ℚ) < len * (1/10) →
      fallbackEnvelope len i = fallbackEnvelope len j) ∧
    (∀ (len : ℚ) (i j : ℕ), 0 < len → len * (1/10) ≤ (i : ℚ) → i < j →
      fallbackEnvelope len j < fallbackEnvelope len i) ∧
    fallbackVolume = 3/10 ∧ loadedVolume = 7/10 ∧
    fallbackVolume < loadedVolume ∧
    (∀ (t : ℕ) (s : KeyState), s.isPressed = false →
      (handleClick t s).soundPlays = s.soundPlays + 1) := by
  refine ⟨?_, ?_, ?_, rfl, rfl, by norm_num [fallbackVolume, loadedVolume], ?_⟩
  · intro sr hsr
    rw [fallbackBufferLen]
    field_simp
    ring
  · intro len i j hi hj
    rw [fallbackEnvelope, fallbackEnvelope, if_pos hi, if_pos hj]
  · intro len i j hlen hi hij
    have hij' : (i : ℚ) < (j : ℚ) := by exact_mod_cast hij
    have hj : len * (1/10) ≤ (j : ℚ) := by linarith
    rw [fallbackEnvelope, fallbackEnvelope, if_neg (by linarith), if_neg (by linarith)]
    have hdiv : (i : ℚ) / len < (j : ℚ) / len := by
      rw [div_lt_div_iff₀ hlen hlen]
      nlinarith
    linarith
  · intro t s hs
    simp [handleClick, hs]

/-- Witness for C4 at a 100-frame buffer (sampleRate 1000): attack samples
2 and 7 agree, decay sample 50 exceeds 60, duration is 0.1 s, playback
fires on a successful click. -/
theorem fallback_sound_profile_witness :
    fallbackBufferLen 1000 / 1000 = 1/10 ∧
    fallbackEnvelope 100 2 = fallbackEnvelope 100 7 ∧
    fallbackEnvelope 100 60 < fallbackEnvelope 100 50 ∧
    (handleClick 0 initKeyState).soundPlays = initKeyState.soundPlays + 1 := by
  have h := fallback_sound_profile
  exact ⟨h.1 1000 (by norm_num),
    h.2.1 100 2 7 (by norm_num) (by norm_num),
    h.2.2.1 100 50 60 (by norm_num) (by norm_num) (by norm_num),
    h.2.2.2.2.2.2 0 initKeyState rfl⟩

/-- The render guard of `KeycapModel` (KeycapModel.tsx lines 299-303): with
no nodes record the component logs a diagnostic and renders nothing;
otherwise it renders the mesh nodes. The result is the rendered mesh names
(if anything is rendered at all) paired with the log output. -/
def renderKeycap (nodes : Option (List (String × Bool))) :
    Option (List String) × List String :=
  match nodes with
  | none => (none, ["Failed to load keycap model"])
  | some ns => (some ((ns.filter (fun n => n.2)).map (fun n => n.1)), [])

/-- C7: when the model fails to load (no nodes record), the component
renders nothing and logs the diagnostic; a loaded model renders without
logging. `renderKeycap` is a total Lean function, so neither case can
crash the host. -/
theorem model_load_failure_renders_nothing :
    renderKeycap none = (none, ["Failed to load keycap model"]) ∧
    (∀ ns, (renderKeycap (some ns)).2 = []) := by
  exact ⟨rfl, fun ns => rfl⟩

/-- The closed finish enumeration (`textureType` prop). -/
inductive Finish where
  | matte
  | glossy
  | carbon
  deriving DecidableEq

/-- The per-finish body settings chosen by the material-setup effect's
switch (KeycapModel.tsx lines 234-254) together with the bump-texture
repeat tiling chosen at lines 263-267. -/
structure FinishConfig where
  roughness : ℚ
  metalness : ℚ
  bumpScale : ℚ
  repeatTiling : ℕ
  deriving DecidableEq

/-- `switch (textureType)` plus the repeat setting: glossy (0.1, 0.5,
0.001, 3x3), carbon (0.4, 0.3, 0.008, 6x6), matte/default (0.8, 0.1,
0.002, 3x3). -/
def finishSettings : Finish → FinishConfig
  | .glossy => { roughness := 1/10, metalness := 1/2, bumpScale := 1/1000, repeatTiling := 3 }
  | .carbon => { roughness := 2/5, metalness := 3/10, bumpScale := 1/125, repeatTiling := 6 }
  | .matte => { roughness := 4/5, metalness := 1/10, bumpScale := 1/500, repeatTiling := 3 }

/-- Does `needle` occur at the start of `hay`? (`String.includes` helper.) -/
def startsWithChars : List Char → List Char → Bool
  | [], _ => true
  | _ :: _, [] => false
  | a :: as, b :: bs => a == b && startsWithChars as bs

/-- Does `needle` occur anywhere in `hay`? (JS `String.includes`.) -/
def containsChars : List Char → List Char → Bool
  | needle, [] => startsWithChars needle []
  | needle, h :: rest => startsWithChars needle (h :: rest) || containsChars needle rest

/-- The letter-surface naming heuristic (KeycapModel.tsx lines 273-276):
the lower-cased material name contains "letter", "text" or the glyph "c". -/
def isLetterMaterial (key : List Char) : Bool :=
  containsChars ("letter".toList) (key.map Char.toLower) ||
  containsChars ("text".toList) (key.map Char.toLower) ||
  containsChars (['c']) (key.map Char.toLower)

/-- The appearance assigned to one named surface: color (hex), roughness,
metalness, and the bump intensity when a bump map is applied (`none` when
the bump map is removed). -/
structure AppliedMaterial where
  color : ℕ
  roughness : ℚ
  metalness : ℚ
  bump : Option ℚ
  deriving DecidableEq

/-- The material-setup branch (KeycapModel.tsx lines 278-293): a letter
surface is forced to white 0xffffff, roughness 0.1, metalness 0.2, bump map
removed; every other surface receives the dark base color 0x0a0a0a and the
selected finish's settings with its bump map. -/
def applyFinish (f : Finish) (key : List Char) : AppliedMaterial :=
  if isLetterMaterial key then
    { color := 0xffffff, roughness := 1/10, metalness := 1/5, bump := none }
  else
    { color := 0x0a0a0a, roughness := (finishSettings f).roughness,
      metalness := (finishSettings f).metalness,
      bump := some ((finishSettings f).bumpScale) }

/-- C5: the three finishes yield pairwise distinct deterministic
(roughness, metalness, bump-intensity, tiling) tuples; a surface classified
as a letter surface resolves to the fixed white/glossy appearance under
every finish, so finish selection never affects it; every other surface
receives exactly the selected finish's settings. -/
theorem finish_distinct_letter_fixed :
    (finishSettings Finish.glossy ≠ finishSettings Finish.carbon ∧
     finishSettings Finish.glossy ≠ finishSettings Finish.matte ∧
     finishSettings Finish.carbon ≠ finishSettings Finish.matte) ∧
    (∀ (f : Finish) (key : List Char), isLetterMaterial key = true →
      applyFinish f key =
        { color := 0xffffff, roughness := 1/10, metalness := 1/5, bump := none }) ∧
    (∀ (f g : Finish) (key : List Char), isLetterMaterial key = true →
      applyFinish f key = applyFinish g key) ∧
    (∀ (f : Finish) (key : List Char), isLetterMaterial key = false →
      applyFinish f key =
        { color := 0x0a0a0a, roughness := (finishSettings f).roughness,
          metalness := (finishSettings f).metalness,
          bump := some ((finishSettings f).bumpScale) }) := by
  refine ⟨⟨by norm_num [finishSettings, FinishConfig.mk.injEq],
    by norm_num [finishSettings, FinishConfig.mk.injEq],
    by norm_num [finishSettings, FinishConfig.mk.injEq]⟩, ?_, ?_, ?_⟩
  · intro f key hk
    rw [applyFinish, if_pos hk]
  · intro f g key hk
    rw [applyFinish, if_pos hk, applyFinish, if_pos hk]
  · intro f key hk
    rw [applyFinish, if_neg (by rw [hk]; exact Bool.false_ne_true)]

/-- Witness for C5: the name "C" (the keycap's glyph) is classified as a
letter surface and gets the fixed white appearance under two different
finishes; the name "body" is not and receives the carbon settings. -/
theorem finish_distinct_letter_fixed_witness :
    applyFinish Finish.carbon ("C".toList) =
      { color := 0xffffff, roughness := 1/10, metalness := 1/5, bump := none } ∧
    applyFinish Finish.matte ("C".toList) = applyFinish Finish.glossy ("C".toList) ∧
    applyFinish Finish.carbon ("body".toList) =
      { color := 0x0a0a0a, roughness := 2/5, metalness := 3/10, bump := some (1/125) } := by
  have h := finish_distinct_letter_fixed
  refine ⟨h.2.1 Finish.carbon ("C".toList) (by decide),
    h.2.2.1 Finish.matte Finish.glossy ("C".toList) (by decide), ?_⟩
  rw [h.2.2.2 Finish.carbon ("body".toList) (by decide)]
  norm_num [finishSettings]
